import Mathlib

set_option maxRecDepth 8000

/-!
Shallow embedding of the mifrun/task-runner worker (src/worker.py) and of the
standalone decomposition test script (src/decompose_test.py), together with
proofs about the scheduler, the executors, and the epic decomposition
pipeline.  Python dynamic values are modelled by `JVal`; string operations are
modelled over the character-list representation of `String`.
-/

namespace TaskRunner

/-- JSON-like Python values as produced by `json.loads` in worker.py.
Numbers are modelled as integers: the payloads the worker manipulates carry
integer exit codes, HTTP statuses and priorities. -/
inductive JVal where
  | null
  | bool (b : Bool)
  | num (i : Int)
  | str (s : String)
  | arr (xs : List JVal)
  | obj (kvs : List (String × JVal))

/-- Python truthiness (`bool(x)`): `None`, `False`, `0`, the empty string, the
empty list and the empty dict are falsy. -/
def JVal.truthy : JVal → Bool
  | .null => false
  | .bool b => b
  | .num i => i != 0
  | .str s => s != ""
  | .arr xs => !xs.isEmpty
  | .obj kvs => !kvs.isEmpty

/-- Python `x or y`. -/
def pyOr (x y : JVal) : JVal := if x.truthy then x else y

/-- `d.get(k)` on a dict (`None` when the key is missing); any other receiver
raises `AttributeError`, modelled as an error. -/
def JVal.get? : JVal → String → Except String JVal
  | .obj kvs, k => .ok ((kvs.lookup k).getD .null)
  | _, _ => .error ("AttributeError: get")

/-- Python `str.strip()`: drop leading and trailing whitespace. -/
def pyStrip (s : String) : String :=
  ⟨((s.data.dropWhile Char.isWhitespace).reverse.dropWhile Char.isWhitespace).reverse⟩

/-- Python slicing `s[:n]`. -/
def pyTake (n : Nat) (s : String) : String := ⟨s.data.take n⟩

/-- Code-point length of a string (Python `len`). -/
def pyLen (s : String) : Nat := s.data.length

/-- Python `str.upper()`, restricted to the ASCII case mapping. -/
def pyUpper (s : String) : String := ⟨s.data.map Char.toUpper⟩

/-- Python `str(x)`.  The renderings of containers are abstracted; the worker
only renders scalars on the paths modelled here. -/
def pyStr : JVal → String
  | .null => "None"
  | .bool true => "True"
  | .bool false => "False"
  | .num i => toString i
  | .str s => s
  | .arr _ => "[list]"
  | .obj _ => "[dict]"

/-- Value of a decimal digit string. -/
def digitsVal (l : List Char) : Nat := l.foldl (fun a c => a * 10 + (c.toNat - 48)) 0

/-- Python `int(s)` on a string: optional surrounding whitespace, an optional
sign, then decimal digits; anything else raises `ValueError`. -/
def parseIntStr (s : String) : Except String Int :=
  let l := (pyStrip s).data
  match l with
  | '-' :: ds =>
    if ds ≠ [] ∧ ds.all Char.isDigit then .ok (-(Int.ofNat (digitsVal ds)))
    else .error ("invalid literal for int(): " ++ s)
  | '+' :: ds =>
    if ds ≠ [] ∧ ds.all Char.isDigit then .ok (Int.ofNat (digitsVal ds))
    else .error ("invalid literal for int(): " ++ s)
  | ds =>
    if ds ≠ [] ∧ ds.all Char.isDigit then .ok (Int.ofNat (digitsVal ds))
    else .error ("invalid literal for int(): " ++ s)

/-- Python `int(x)` on an arbitrary value: ints pass through, bools count as 0
or 1, numeric strings parse, anything else raises. -/
def pyInt : JVal → Except String Int
  | .num i => .ok i
  | .bool b => .ok (if b then 1 else 0)
  | .str s => parseIntStr s
  | _ => .error ("int(): argument is neither a string nor a number")

/-! ### Allow-list policy (worker.py:22-25) -/

def ALLOWED_ACTIONS : List String := ["run_script", "call_api", "codex_apply"]

def ALLOWED_SCRIPTS : List String := ["build.sh", "sync_data.sh"]

def ALLOWED_URLS : List String := ["https://httpbin.org/post"]

/-! ### Action executors (worker.py:102-128) -/

/-- Environment abstracting the Python library facilities worker.py calls:
`json.loads`, `shlex.split`, the completed-subprocess result of running
`./tasks/<name>` (combined stdout and stderr), and the HTTP response of
`requests.request` (status code and body text). -/
structure Env where
  loads : String → Except String JVal
  split : String → List String
  runScript : String → Int × String
  httpResp : String → String → JVal → Int × String

/-- Outcome of one executor call.  `raised` is an exception thrown before any
side effect: only `ranScript` spawns a subprocess and only `calledApi` issues
an HTTP request. -/
inductive ExecOutcome where
  | raised (msg : String)
  | ranScript (script : String) (code : Int) (out : String)
  | calledApi (url : String) (method : String) (code : Int) (out : String)

/-- `os.path.basename`: the part of the path after the last slash. -/
def basename (s : String) : String :=
  ⟨(s.data.reverse.takeWhile (fun c => c ≠ '/')).reverse⟩

/-- worker.py:102-113 `safe_run`.  `shlex.split(cmd or "")` raises on a truthy
non-string; a token count other than one, or a base filename outside
`ALLOWED_SCRIPTS`, raises before any subprocess is spawned. -/
def safe_run (env : Env) (cmd : JVal) : ExecOutcome :=
  match pyOr cmd (.str "") with
  | .str s =>
    match env.split s with
    | [tok] =>
      let name := basename tok
      if ALLOWED_SCRIPTS.contains name then
        let r := env.runScript name
        .ranScript name r.1 r.2
      else .raised ("Script " ++ name ++ " not allowed")
    | _ => .raised ("Only single command name allowed in Payload.cmd")
  | _ => .raised ("shlex.split: not a string")

/-- Membership of the url value in the allow-list (worker.py:119); a
non-string value is never a member. -/
def urlAllowed : JVal → Bool
  | .str s => ALLOWED_URLS.contains s
  | _ => false

/-- worker.py:115-124 `call_api`.  The method default and upper-casing are
computed before the URL check, mirroring the source order, so a truthy
non-string method raises first.  The output text is the status code followed
by the first 1500 characters of the body. -/
def call_api (env : Env) (payload : JVal) : ExecOutcome :=
  match payload.get? ("url"), payload.get? ("method"), payload.get? ("body") with
  | .ok urlV, .ok methodV, .ok bodyV =>
    match pyOr methodV (.str "GET") with
    | .str m =>
      let method := pyUpper m
      if !urlV.truthy || !urlAllowed urlV then .raised ("URL not allowed")
      else
        match urlV with
        | .str url =>
          let r := env.httpResp url method bodyV
          .calledApi url method r.1 (toString r.1 ++ " " ++ pyTake 1500 r.2)
        | _ => .raised ("URL not allowed")
    | _ => .raised ("AttributeError: upper")
  | _, _, _ => .raised ("AttributeError: get")

/-! ### Task pages and the runner (worker.py:64-100, 130-159, 326-345) -/

/-- A task page as stored, with the properties worker.py reads plus the
store-side fields the specification speaks about (`dependsOn`, `attempts`,
`maxAttempts`), which worker.py never reads or writes. -/
structure Page where
  id : String
  nameTitle : List String
  action : Option String
  payloadParts : List String
  status : String
  priority : Int
  dependsOn : List String
  attempts : Int
  maxAttempts : Int

/-- One write performed through `set_status` (worker.py:65-84): the new Status
select value plus the truncated log snippet, when any. -/
structure StatusUpdate where
  status : String
  logs : Option String

/-- worker.py:65-71: the log snippet is attached only when `logs` is truthy,
truncated to 1800 characters. -/
def set_status (status : String) (logs : Option String) : StatusUpdate :=
  match logs with
  | some s => if s != "" then ⟨status, some (pyTake 1800 s)⟩ else ⟨status, none⟩
  | none => ⟨status, none⟩

/-- worker.py:135-141: join the Payload rich text, default the empty text to
an empty JSON object, parse it, and fall back to an empty dict on any parse
failure. -/
def payload_of (env : Env) (page : Page) : JVal :=
  let txt := String.join page.payloadParts
  let txt := if txt == "" then "\x7b\x7d" else txt
  match env.loads txt with
  | .ok v => v
  | .error _ => .obj []

/-- Rendering of the Action select in the unknown-action message (an f-string
over a possibly missing value). -/
def optStr : Option String → String
  | none => "None"
  | some s => s

/-- worker.py:145-152: dispatch on the Action select name. -/
def dispatch (env : Env) (action : Option String) (payload : JVal) : ExecOutcome :=
  if action == some ("run_script") then
    match payload.get? ("cmd") with
    | .ok cmd => safe_run env cmd
    | .error e => .raised e
  else if action == some ("call_api") then call_api env payload
  else if action == some ("codex_apply") then
    .raised ("codex_apply disabled (Codex CLI not installed)")
  else .raised ("Unknown or not allowed action: " ++ optStr action)

/-- The Python integer value of a value, when `isinstance(x, int)` holds
(Python bools are ints valued 0 and 1). -/
def pyIntVal : JVal → Option Int
  | .num i => some i
  | .bool b => some (if b then 1 else 0)
  | _ => none

/-- worker.py:154 — the success test over an arbitrary result code value. -/
def isSuccessCode (v : JVal) : Bool :=
  match pyIntVal v with
  | some i => i == 0 || (decide (200 ≤ i) && decide (i < 300))
  | none => false

/-- worker.py:130-159 `handle_task`: the sequence of status writes performed
for one page.  The page is set to Running before the dispatch; the executor
outcome then decides Done versus Failed, any exception being converted into a
Failed update carrying the error text. -/
def handle_task (env : Env) (page : Page) : List StatusUpdate :=
  let payload := payload_of env page
  [set_status ("Running") none,
   match dispatch env page.action payload with
   | .raised e => set_status ("Failed") (some ("Error: " ++ e))
   | .ranScript _ code out =>
     if isSuccessCode (.num code) then set_status ("Done") (some out)
     else set_status ("Failed") (some out)
   | .calledApi _ _ code out =>
     if isSuccessCode (.num code) then set_status ("Done") (some out)
     else set_status ("Failed") (some out)]

/-- worker.py:87-100 `fetch_ready_tasks`: the Status=Ready equality filter
with the query page size (20).  The store-side sort (priority ascending, then
last-edited time) is abstracted as the order of the given list. -/
def fetch_ready_tasks (pages : List Page) : List Page :=
  (pages.filter (fun p => p.status == "Ready")).take 20

/-! ### Epic decomposition pipeline (worker.py:195-323) -/

/-- Payload of a validated generated task (worker.py:253-264). -/
inductive GPayload where
  | runScript (cmd : String)
  | callApi (url : String) (method : String) (body : JVal)

/-- A task appended by the validation loop (worker.py:266-271). -/
structure GenTask where
  title : String
  action : String
  payload : GPayload
  priority : Int

/-- worker.py:245-272 — validation of one array element at running-counter
value `p`: `ok none` means silently dropped, `ok (some t)` appended, `error`
an exception aborting `llm_decompose_epic`.  The computation order mirrors
the source: title, action strip, payload default, `int(priority or p)`, then
the drop test, then the per-action clamps. -/
def sanitize_item (p : Int) (item : JVal) : Except String (Option GenTask) :=
  match item.get? ("title"), item.get? ("action"), item.get? ("payload"), item.get? ("priority") with
  | .ok titleV, .ok actionV, .ok plV, .ok priV =>
    let title := pyTake 180 (pyStrip (pyStr (pyOr titleV (.str ""))))
    match pyOr actionV (.str "") with
    | .str a =>
      let action := pyStrip a
      let pl := pyOr plV (.obj [])
      match pyInt (pyOr priV (.num p)) with
      | .error e => .error e
      | .ok priority =>
        if title == "" || !(action == "run_script" || action == "call_api") then .ok none
        else if action == "run_script" then
          match pl.get? ("cmd") with
          | .error e => .error e
          | .ok cmdV =>
            let cmd := pyStr (pyOr cmdV (.str "build.sh"))
            let cmd := if ALLOWED_SCRIPTS.contains cmd then cmd else "build.sh"
            .ok (some ⟨title, action, .runScript cmd, max 1 (min 999 priority)⟩)
        else
          match pl.get? ("url"), pl.get? ("method"), pl.get? ("body") with
          | .ok urlV, .ok methodV, .ok bodyV =>
            let url := pyStr (pyOr urlV (.str "https://httpbin.org/post"))
            let url := if ALLOWED_URLS.contains url then url else "https://httpbin.org/post"
            match pyOr methodV (.str "POST") with
            | .str m =>
              let method := pyUpper m
              let body := pyOr bodyV (.obj [("ping", .str "ok")])
              .ok (some ⟨title, action, .callApi url method body, max 1 (min 999 priority)⟩)
            | _ => .error ("AttributeError: upper")
          | _, _, _ => .error ("AttributeError: get")
    | _ => .error ("AttributeError: strip")
  | _, _, _, _ => .error ("AttributeError: get")

/-- worker.py:243-272 — the validation loop, threading the running counter
(incremented only when an element is appended). -/
def sanitize_items : List JVal → Int → Except String (List GenTask)
  | [], _ => .ok []
  | item :: rest, p =>
    match sanitize_item p item with
    | .error e => .error e
    | .ok none => sanitize_items rest p
    | .ok (some t) =>
      match sanitize_items rest (p + 1) with
      | .error e => .error e
      | .ok ts => .ok (t :: ts)

/-- worker.py:243-277 — validate the first 25 array elements, then apply the
too-few-tasks guard. -/
def sanitize_tasks (data : List JVal) : Except String (List GenTask) :=
  match sanitize_items (data.take 25) 1 with
  | .error e => .error e
  | .ok tasks =>
    if tasks.length < 5 then .error ("Too few tasks after validation") else .ok tasks

/-- One interaction with the chat-completions backend: either an HTTP
response (`ok`, status code, body text, extracted message content) or a
raised network error. -/
structure HttpResp where
  ok : Bool
  status : Int
  text : String
  content : String

inductive GenAttempt where
  | resp (r : HttpResp)
  | netErr (e : String)

/-- worker.py:221-223 — the single chat-completions POST inside
`llm_decompose_epic`: a network error propagates and any non-ok response
raises immediately; there is no retry around this call. -/
def llm_backend_call (a : GenAttempt) : Except String String :=
  match a with
  | .resp r =>
    if r.ok then .ok r.content
    else .error ("OpenAI API error: " ++ toString r.status ++ " " ++ pyTake 400 r.text)
  | .netErr e => .error e

/-- worker.py:195-277 `llm_decompose_epic`: the key check, the backend call,
then parse and validation.  The fenced-code-block extraction regex and
`json.loads` are abstracted as `extract` and `loads`. -/
def llm_decompose_epic (key : Option String) (attempt : GenAttempt)
    (extract : String → String) (loads : String → Except String JVal) :
    Except String (List GenTask) :=
  if (key.getD "") == "" then .error ("OPENAI_API_KEY not set (LLM unavailable)")
  else
    match llm_backend_call attempt with
    | .error e => .error e
    | .ok content =>
      match loads (extract content) with
      | .error e => .error ("LLM JSON parse error: " ++ e)
      | .ok (.arr items) => sanitize_tasks items
      | .ok _ => .error ("LLM JSON parse error: Expected a JSON array")

/-- Outcome of processing one epic: the status writes on the epic page and
the tasks handed to `create_tasks_in_notion` (empty when the creation step is
never reached). -/
structure EpicOutcome where
  updates : List StatusUpdate
  created : List GenTask

/-- worker.py:279-305 `create_tasks_in_notion` — create each task, counting
the successful page creations; `createOk` abstracts the per-request HTTP
outcome. -/
def create_tasks_in_notion (createOk : GenTask → Bool) (tasks : List GenTask) : Nat :=
  (tasks.filter createOk).length

/-- worker.py:309-323 — the body of `process_epics` for one epic; `desc` is
the stripped Description text and `decompose` the result of
`llm_decompose_epic`. -/
def process_epic (desc : String) (decompose : Except String (List GenTask))
    (createOk : GenTask → Bool) : EpicOutcome :=
  if desc == "" then ⟨[set_status ("Failed") (some ("Epic has empty Description"))], []⟩
  else
    let running := set_status ("Running") (some ("Decomposing epic into tasks..."))
    match decompose with
    | .ok tasks =>
      let n := create_tasks_in_notion createOk tasks
      ⟨[running, set_status ("Done") (some ("Created " ++ toString n ++ " task(s) from epic"))],
       tasks⟩
    | .error e =>
      ⟨[running, set_status ("Failed") (some ("Epic decomposition failed: " ++ e))], []⟩

/-- The JSON object `create_tasks_in_notion` serializes for a generated task
(worker.py:287-294); feeding these back into the validator models running
the sanitization a second time on its own output. -/
def GPayload.toJVal : GPayload → JVal
  | .runScript cmd => .obj [("cmd", .str cmd)]
  | .callApi url method body => .obj [("url", .str url), ("method", .str method), ("body", body)]

def GenTask.toJVal (t : GenTask) : JVal :=
  .obj [("title", .str t.title), ("action", .str t.action),
        ("payload", t.payload.toJVal), ("priority", .num t.priority)]

/-! ### The standalone test script retry loop (decompose_test.py:27-62) -/

/-- decompose_test.py:44-62 — the retry loop around the chat-completions
POST: up to 5 attempts; on a 5xx response or a network error sleep and retry;
on any other non-ok response break and fail; `backend i` is the outcome of
the i-th POST. -/
def chat_complete_go (backend : Nat → GenAttempt) : Nat → Nat → Option String → Except String String
  | _, 0, last => .error ("Failed after retries: " ++ optStr last)
  | i, fuel + 1, _ =>
    match backend i with
    | .resp r =>
      if r.ok then .ok r.content
      else
        let lastE := some (toString r.status ++ " " ++ pyTake 300 r.text)
        if 500 ≤ r.status then chat_complete_go backend (i + 1) fuel lastE
        else .error ("Failed after retries: " ++ optStr lastE)
    | .netErr e => chat_complete_go backend (i + 1) fuel (some e)

/-- decompose_test.py:27-62 `chat_complete`. -/
def chat_complete (backend : Nat → GenAttempt) : Except String String :=
  chat_complete_go backend 0 5 none

/-! ### Concrete instances used by the closed theorems -/

/-- The serialized payload text of the C4 scenario task. -/
def evilPayloadTxt : String :=
  "\x7b\"url\":\"https://evil.example/hook\",\"method\":1\x7d"

/-- The serialized payload text of a plain build task. -/
def buildPayloadTxt : String := "\x7b\"cmd\":\"build.sh\"\x7d"

/-- Whitespace tokenization (the behavior of `shlex.split` on commands
without quotes), written structurally so that it evaluates. -/
def splitWsAux : List Char → List Char → List String
  | [], acc => if acc.isEmpty then [] else [⟨acc.reverse⟩]
  | c :: cs, acc =>
    if c.isWhitespace then
      if acc.isEmpty then splitWsAux cs [] else ⟨acc.reverse⟩ :: splitWsAux cs []
    else splitWsAux cs (c :: acc)

def wsSplit (s : String) : List String := splitWsAux s.data []

/-- A concrete environment: a `json.loads` recognizing the payload texts used
below, whitespace tokenization for `shlex.split`, a script that exits 0 with
output `ok`, and an HTTP endpoint answering 200 `ok`. -/
def env0 : Env where
  loads := fun s =>
    if s == "\x7b\x7d" then .ok (.obj [])
    else if s == evilPayloadTxt then
      .ok (.obj [("url", .str ("https://evil.example/hook")), ("method", .num 1)])
    else if s == buildPayloadTxt then .ok (.obj [("cmd", .str ("build.sh"))])
    else .error ("Expecting value: line 1 column 1 (char 0)")
  split := wsSplit
  runScript := fun _ => (0, "ok")
  httpResp := fun _ _ _ => (200, "ok")

/-- A Ready task with one declared dependency (a store-side property the
worker never consults). -/
def pageC1 : Page :=
  ⟨"page-1", ["Deploy"], some ("call_api"), [], "Ready", 5, ["task-0"], 0, 3⟩

/-- Dependency statuses at resolution time: `task-0` is still Ready. -/
def depStatuses0 : String → Option String := fun i =>
  if i == "task-0" then some ("Ready") else none

/-- A Ready task whose attempt budget is exhausted. -/
def pageC2 : Page :=
  ⟨"page-2", ["Build"], some ("run_script"), [], "Ready", 1, [], 3, 3⟩

/-- The C4 scenario task: a call_api payload with a disallowed URL and a
numeric method field. -/
def pageC4 : Page :=
  ⟨"page-4", ["Hook"], some ("call_api"), [evilPayloadTxt], "Ready", 1, [], 0, 3⟩

def payloadC4 : JVal :=
  .obj [("url", .str ("https://evil.example/hook")), ("method", .num 1)]

/-- A well-formed run_script task used to exercise the success path. -/
def pageC5 : Page :=
  ⟨"page-5", ["Build"], some ("run_script"), [buildPayloadTxt], "Ready", 1, [], 0, 3⟩

/-- A task with an action outside the dispatch table. -/
def pageC10 : Page :=
  ⟨"page-10", ["Noop"], some ("noop"), [], "Ready", 1, [], 0, 3⟩

/-- A well-formed generation-output element. -/
def mkItem (title : String) (pr : Int) : JVal :=
  .obj [("title", .str title), ("action", .str ("run_script")),
        ("payload", .obj [("cmd", .str ("build.sh"))]), ("priority", .num pr)]

/-- An element whose priority is a truthy non-numeric string. -/
def itemBadPriority : JVal :=
  .obj [("title", .str ("Setup repo")), ("action", .str ("run_script")),
        ("payload", .obj [("cmd", .str ("build.sh"))]), ("priority", .str ("high"))]

/-- Five good elements followed by the bad-priority element. -/
def dataC6 : List JVal :=
  [mkItem ("t1") 1, mkItem ("t2") 2, mkItem ("t3") 3, mkItem ("t4") 4, mkItem ("t5") 5,
   itemBadPriority]

/-- A 181-character title with no leading or trailing whitespace: truncation
to 180 characters exposes a trailing space. -/
def longTitle : String := ⟨List.replicate 179 'a' ++ [' ', 'b']⟩

def dataC9 : List JVal :=
  [mkItem ("t1") 1, mkItem ("t2") 2, mkItem ("t3") 3, mkItem ("t4") 4, mkItem longTitle 5]

def buildTask (title : String) (pr : Int) : GenTask :=
  ⟨title, "run_script", .runScript ("build.sh"), pr⟩

/-- The first sanitization pass over `dataC9`: the long title keeps its
trailing space. -/
def tasksC9 : List GenTask :=
  [buildTask ("t1") 1, buildTask ("t2") 2, buildTask ("t3") 3, buildTask ("t4") 4,
   buildTask (⟨List.replicate 179 'a' ++ [' ']⟩) 5]

/-- The second sanitization pass strips the exposed trailing space. -/
def tasksC9sec : List GenTask :=
  [buildTask ("t1") 1, buildTask ("t2") 2, buildTask ("t3") 3, buildTask ("t4") 4,
   buildTask (⟨List.replicate 179 'a'⟩) 5]

/-- Five well-formed elements whose titles are unaffected by truncation. -/
def dataW : List JVal :=
  [mkItem ("t1") 1, mkItem ("t2") 2, mkItem ("t3") 3, mkItem ("t4") 4, mkItem ("t5") 5]

def tasksW : List GenTask :=
  [buildTask ("t1") 1, buildTask ("t2") 2, buildTask ("t3") 3, buildTask ("t4") 4,
   buildTask ("t5") 5]

/-- The backend behavior of the C8 counterexample: the first POST answers
503, every later POST succeeds with an empty JSON array. -/
def backendC8 : Nat → GenAttempt := fun n =>
  if n == 0 then .resp ⟨false, 503, "upstream error", ""⟩
  else .resp ⟨true, 200, "", "[]"⟩

/-- A backend that always answers 401. -/
def backend401 : Nat → GenAttempt := fun _ =>
  .resp ⟨false, 401, "unauthorized", ""⟩

/-- Shape facts holding of every task the validation loop appends. -/
def GoodTask (t : GenTask) : Prop :=
  t.title ≠ "" ∧ pyLen t.title ≤ 180 ∧ 1 ≤ t.priority ∧ t.priority ≤ 999 ∧
  ((t.action = "run_script" ∧
      ∃ cmd, t.payload = .runScript cmd ∧ ALLOWED_SCRIPTS.contains cmd = true) ∨
   (t.action = "call_api" ∧
      ∃ url method body, t.payload = .callApi url method body ∧
        ALLOWED_URLS.contains url = true ∧ method ≠ "" ∧ pyUpper method = method ∧
        body.truthy = true))

/-! ### Helper lemmas -/

theorem char_toNat_ofNat {n : Nat} (h : n.isValidChar) : (Char.ofNat n).toNat = n := by
  rw [Char.ofNat, dif_pos h]
  rfl

theorem toUpper_toUpper (c : Char) : Char.toUpper (Char.toUpper c) = Char.toUpper c := by
  simp only [Char.toUpper]
  split
  · next h =>
    have hv : (c.toNat - 32).isValidChar := Or.inl (by omega)
    rw [char_toNat_ofNat hv, if_neg (by omega)]
  · rfl

theorem map_toUpper_idem (l : List Char) :
    (l.map Char.toUpper).map Char.toUpper = l.map Char.toUpper := by
  induction l with
  | nil => rfl
  | cons c cs ih => simp [toUpper_toUpper, ih]

theorem pyUpper_pyUpper (s : String) : pyUpper (pyUpper s) = pyUpper s := by
  simp only [pyUpper]
  exact congrArg String.mk (map_toUpper_idem s.data)

theorem data_ne_of_ne_empty {s : String} (h : s ≠ "") : s.data ≠ [] := by
  intro hd
  apply h
  cases s
  simp_all [String.ext_iff]

theorem ne_empty_of_data_ne {s : String} (h : s.data ≠ []) : s ≠ "" := by
  intro he
  subst he
  exact h rfl

theorem pyUpper_ne_empty {s : String} (h : s ≠ "") : pyUpper s ≠ "" := by
  apply ne_empty_of_data_ne
  simp only [pyUpper]
  simpa using data_ne_of_ne_empty h

theorem pyLen_pyTake_le (n : Nat) (s : String) : pyLen (pyTake n s) ≤ n := by
  simp only [pyLen, pyTake, List.length_take]
  omega

theorem pyTake_eq_self {n : Nat} {s : String} (h : pyLen s ≤ n) : pyTake n s = s := by
  simp only [pyTake, List.take_of_length_le h]

theorem pyOr_pos {x : JVal} (h : x.truthy = true) (y : JVal) : pyOr x y = x := by
  simp [pyOr, h]

theorem pyOr_neg {x : JVal} (h : x.truthy = false) (y : JVal) : pyOr x y = y := by
  simp [pyOr, h]

theorem pyOr_truthy_right {x y : JVal} (h : y.truthy = true) : (pyOr x y).truthy = true := by
  unfold pyOr
  split <;> simp_all

theorem str_truthy_of_ne {s : String} (h : s ≠ "") : (JVal.str s).truthy = true := by
  simpa [JVal.truthy] using h

/-- The string case of a `pyOr _ (.str d)` with a nonempty default is itself
nonempty. -/
theorem pyOr_str_ne {x : JVal} {d m : String} (hd : d ≠ "")
    (h : pyOr x (.str d) = .str m) : m ≠ "" := by
  unfold pyOr at h
  split at h
  · next ht =>
    subst h
    simpa [JVal.truthy] using ht
  · cases h
    exact hd

theorem set_status_status (s : String) (l : Option String) : (set_status s l).status = s := by
  unfold set_status
  cases l
  · rfl
  · dsimp only
    split <;> rfl

theorem error_msg_ne (e : String) : (("Error: " ++ e) != "") = true := by
  rw [bne_iff_ne]
  intro h
  have h2 := congrArg String.data h
  rw [show ("Error: " ++ e).data = 'E' :: ("rror: " ++ e).data from rfl] at h2
  simp at h2

theorem mem_fetch_ready {pages : List Page} {p : Page}
    (h : p ∈ fetch_ready_tasks pages) : p.status = "Ready" := by
  unfold fetch_ready_tasks at h
  have h2 := List.take_subset 20 _ h
  rw [List.mem_filter] at h2
  simpa using h2.2

theorem clamp_low (x : Int) : 1 ≤ max 1 (min 999 x) := le_max_left 1 _

theorem clamp_high (x : Int) : max 1 (min 999 x) ≤ 999 := by
  rw [max_le_iff]
  exact ⟨by norm_num, min_le_left 999 x⟩

/-- Every task the validation loop appends satisfies `GoodTask`. -/
theorem sanitize_item_good {p : Int} {item : JVal} {t : GenTask}
    (h : sanitize_item p item = .ok (some t)) : GoodTask t := by
  unfold sanitize_item at h
  split at h
  case h_2 => exact absurd h (by simp)
  next titleV actionV plV priV hT2 hA2 hPl2 hPr2 =>
  split at h
  case h_2 => exact absurd h (by simp)
  next a hA =>
  split at h
  case h_1 => exact absurd h (by simp)
  next priority hP =>
  dsimp only at h
  split at h
  case isTrue => exact absurd h (by simp)
  next hguard =>
  have hguard2 : ¬(pyTake 180 (pyStrip (pyStr (pyOr titleV (.str "")))) = "") ∧
      (pyStrip a = "run_script" ∨ pyStrip a = "call_api") := by
    have h2 : ¬pyTake 180 (pyStrip (pyStr (pyOr titleV (JVal.str "")))) = "" ∧
        (¬pyStrip a = "run_script" → pyStrip a = "call_api") := by simpa using hguard
    exact ⟨h2.1, or_iff_not_imp_left.mpr h2.2⟩
  split at h
  · -- run_script branch
    next hrs =>
    split at h
    case h_1 => exact absurd h (by simp)
    next cmdV hC =>
    rw [Except.ok.injEq, Option.some.injEq] at h
    subst h
    refine ⟨hguard2.1, pyLen_pyTake_le _ _, clamp_low _, clamp_high _, Or.inl ⟨by simpa using hrs, ?_⟩⟩
    refine ⟨_, rfl, ?_⟩
    split
    · next hc => exact hc
    · decide
  · -- call_api branch
    next hrs =>
    split at h
    case h_2 => exact absurd h (by simp)
    next urlV methodV bodyV hU hM hB =>
    split at h
    case h_2 => exact absurd h (by simp)
    next m hm =>
    rw [Except.ok.injEq, Option.some.injEq] at h
    subst h
    have haction : pyStrip a = "call_api" := by
      rcases hguard2.2 with h1 | h1
      · exact absurd (by simpa using h1) hrs
      · exact h1
    refine ⟨hguard2.1, pyLen_pyTake_le _ _, clamp_low _, clamp_high _, Or.inr ⟨haction, ?_⟩⟩
    refine ⟨_, _, _, rfl, ?_, ?_, ?_, ?_⟩
    · split
      · next hc => exact hc
      · decide
    · exact pyUpper_ne_empty (pyOr_str_ne (by decide) hm)
    · exact pyUpper_pyUpper m
    · exact pyOr_truthy_right (by decide)

/-- Loop invariant: every output of the validation loop is `GoodTask`, and
the loop never produces more tasks than input elements. -/
theorem sanitize_items_good : ∀ (items : List JVal) (p : Int) (ts : List GenTask),
    sanitize_items items p = .ok ts →
    (∀ t ∈ ts, GoodTask t) ∧ ts.length ≤ items.length := by
  intro items
  induction items with
  | nil =>
    intro p ts h
    simp only [sanitize_items, Except.ok.injEq] at h
    subst h
    simp
  | cons item rest ih =>
    intro p ts h
    unfold sanitize_items at h
    split at h
    · exact absurd h (by simp)
    · next hitem =>
      have hr := ih p ts h
      exact ⟨hr.1, by simpa using Nat.le_succ_of_le hr.2⟩
    · next t0 hitem =>
      split at h
      · exact absurd h (by simp)
      · next ts0 hrest =>
        rw [Except.ok.injEq] at h
        subst h
        have hr := ih (p + 1) ts0 hrest
        constructor
        · intro t htm
          rcases List.mem_cons.mp htm with rfl | ht2
          · exact sanitize_item_good hitem
          · exact hr.1 t ht2
        · simpa using Nat.succ_le_succ hr.2

theorem clamp_eq {x : Int} (h1 : 1 ≤ x) (h2 : x ≤ 999) : max 1 (min 999 x) = x := by
  rw [min_eq_right h2, max_eq_right h1]

theorem allowed_script_cases {cmd : String} (h : ALLOWED_SCRIPTS.contains cmd = true) :
    cmd = "build.sh" ∨ cmd = "sync_data.sh" := by
  simpa [ALLOWED_SCRIPTS, List.contains] using h

theorem allowed_url_cases {url : String} (h : ALLOWED_URLS.contains url = true) :
    url = "https://httpbin.org/post" := by
  simpa [ALLOWED_URLS, List.contains] using h

/-- Re-validating a serialized output task reproduces it exactly, provided
its title is unaffected by a second strip. -/
theorem sanitize_item_fixed (p : Int) (t : GenTask) (hg : GoodTask t)
    (ht : pyStrip t.title = t.title) : sanitize_item p t.toJVal = .ok (some t) := by
  obtain ⟨hne, hlen, hlo, hhi, hact⟩ := hg
  have hnum : (JVal.num t.priority).truthy = true := by
    simp only [JVal.truthy, bne_iff_ne, ne_eq, decide_eq_true_eq]
    omega
  rcases hact with ⟨ha, cmd, hpl, hcmd⟩ | ⟨ha, url, method, body, hpl, hurl, hmne, hmupper, hbody⟩
  · obtain ⟨title, action, payload, priority⟩ := t
    simp only at ha hpl hne hlen hlo hhi ht hnum
    subst ha hpl
    have hcne : cmd ≠ "" := by
      rcases allowed_script_cases hcmd with h | h <;> simp [h]
    unfold GenTask.toJVal GPayload.toJVal sanitize_item
    have hp0 : ¬priority = 0 := by omega
    have hmem : cmd ∈ ALLOWED_SCRIPTS := by
      rcases allowed_script_cases hcmd with h | h <;> simp [h, ALLOWED_SCRIPTS]
    simp only [JVal.get?, List.lookup]
    simp [pyOr, JVal.truthy, pyStr, pyInt, hne, ht, hcne, hcmd, bne_iff_ne, hp0, hmem,
          pyTake_eq_self hlen, clamp_eq hlo hhi,
          show pyStrip ("run_script") = "run_script" from by decide]
  · obtain ⟨title, action, payload, priority⟩ := t
    simp only at ha hpl hne hlen hlo hhi ht hnum
    subst ha hpl
    have hu := allowed_url_cases hurl
    subst hu
    have hp0 : ¬priority = 0 := by omega
    unfold GenTask.toJVal GPayload.toJVal sanitize_item
    simp only [JVal.get?, List.lookup]
    simp [pyOr, JVal.truthy, pyStr, pyInt, JVal.get?, List.lookup, hne, ht, hmne, hmupper,
          hbody, hp0, bne_iff_ne, pyTake_eq_self hlen, clamp_eq hlo hhi, ALLOWED_URLS,
          show pyStrip ("call_api") = "call_api" from by decide]
    intro hf
    unfold JVal.truthy at hbody
    rw [hbody] at hf
    exact absurd hf (by simp)

/-- Re-validating a serialized list of output tasks reproduces it, at any
counter value, provided each title is unaffected by a second strip. -/
theorem sanitize_items_fixed : ∀ (ts : List GenTask) (p : Int),
    (∀ t ∈ ts, GoodTask t ∧ pyStrip t.title = t.title) →
    sanitize_items (ts.map GenTask.toJVal) p = .ok ts := by
  intro ts
  induction ts with
  | nil => intro p _; rfl
  | cons t rest ih =>
    intro p h
    have h1 := h t (List.mem_cons_self t rest)
    have h2 := ih (p + 1) (fun u hu => h u (List.mem_cons_of_mem t hu))
    rw [List.map_cons]
    unfold sanitize_items
    rw [sanitize_item_fixed p t h1.1 h1.2, h2]

theorem set_status_some_ne {s : String} (st : String) (h : (s != "") = true) :
    set_status st (some s) = ⟨st, some (pyTake 1800 s)⟩ := by
  unfold set_status
  dsimp only
  rw [if_pos h]

/-- Dispatch on an action outside the table raises before any executor runs. -/
theorem dispatch_unknown {env : Env} {action : Option String} {payload : JVal}
    (h : action ∉ [some ("run_script"), some ("call_api"), some ("codex_apply")]) :
    dispatch env action payload =
      .raised ("Unknown or not allowed action: " ++ optStr action) := by
  have h1 : ¬(action == some ("run_script")) = true := by
    simp only [beq_iff_eq]
    exact fun he => h (by simp [he])
  have h2 : ¬(action == some ("call_api")) = true := by
    simp only [beq_iff_eq]
    exact fun he => h (by simp [he])
  have h3 : ¬(action == some ("codex_apply")) = true := by
    simp only [beq_iff_eq]
    exact fun he => h (by simp [he])
  unfold dispatch
  rw [if_neg h1, if_neg h2, if_neg h3]

/-! ### Claim theorems -/

/-- C1 (counterexample): a Ready task with a declared dependency whose status
is Ready (not Done) is nevertheless selected by the Ready query and
immediately transitioned to Running — the claim that such a task is never
transitioned to Running is false of worker.py. -/
theorem c1_runs_despite_unmet_dependency :
    pageC1.dependsOn = ["task-0"] ∧ depStatuses0 ("task-0") = some ("Ready") ∧
    fetch_ready_tasks [pageC1] = [pageC1] ∧
    (handle_task env0 pageC1).head? = some ⟨"Running", none⟩ :=
  ⟨rfl, rfl, rfl, rfl⟩

/-- C1 (amended): worker.py performs no dependency resolution at all: the
handling of a task is independent of its dependsOn set, every handled task is
transitioned to Running first regardless of any dependency statuses, and the
scheduler pass selects tasks purely on Status = Ready. -/
theorem c1_no_dependency_resolution :
    (∀ env page d, handle_task env { page with dependsOn := d } = handle_task env page) ∧
    (∀ env page, (handle_task env page).head? = some ⟨"Running", none⟩) ∧
    (∀ pages p, p ∈ fetch_ready_tasks pages → p.status = "Ready") := by
  refine ⟨?_, ?_, ?_⟩
  · intro env page d
    cases page
    rfl
  · intro env page
    rfl
  · intro pages p h
    exact mem_fetch_ready h

/-- Witness for C1 at a concrete page and environment. -/
theorem c1_no_dependency_resolution_witness :
    handle_task env0 { pageC1 with dependsOn := [] } = handle_task env0 pageC1 ∧
    (handle_task env0 pageC1).head? = some ⟨"Running", none⟩ ∧
    pageC1.status = "Ready" :=
  ⟨c1_no_dependency_resolution.1 env0 pageC1 [],
   c1_no_dependency_resolution.2.1 env0 pageC1,
   c1_no_dependency_resolution.2.2 [pageC1] pageC1
     (by simp [fetch_ready_tasks, pageC1])⟩

/-- C2 (counterexample): a Ready task whose attempts equal maxAttempts is
still selected by the Ready query and executed (transitioned to Running and
then to a terminal status); worker.py keeps no attempt accounting, so the
claim that such a task is never selected again is false. -/
theorem c2_exhausted_task_still_selected :
    pageC2.attempts = 3 ∧ pageC2.maxAttempts = 3 ∧
    fetch_ready_tasks [pageC2] = [pageC2] ∧
    handle_task env0 pageC2 =
      [⟨"Running", none⟩,
       ⟨"Failed", some ("Error: Only single command name allowed in Payload.cmd")⟩] :=
  ⟨rfl, rfl, rfl, rfl⟩

/-- C2 (amended): worker.py never reads or writes the attempts counter:
handling a task is independent of its attempts and maxAttempts fields,
selection commutes with any change of those fields, and a task is selected
exactly by Status = Ready; the only writes performed are Status/Logs
updates. -/
theorem c2_no_attempt_accounting :
    (∀ env page a m,
        handle_task env { page with attempts := a, maxAttempts := m } =
          handle_task env page) ∧
    (∀ pages a m,
        fetch_ready_tasks (pages.map (fun p => { p with attempts := a, maxAttempts := m })) =
          (fetch_ready_tasks pages).map (fun p => { p with attempts := a, maxAttempts := m })) ∧
    (∀ pages p, p ∈ fetch_ready_tasks pages → p.status = "Ready") := by
  refine ⟨?_, ?_, ?_⟩
  · intro env page a m
    cases page
    rfl
  · intro pages a m
    unfold fetch_ready_tasks
    rw [List.filter_map, List.map_take]
    rfl
  · intro pages p h
    exact mem_fetch_ready h

/-- Witness for C2 at a concrete page and environment. -/
theorem c2_no_attempt_accounting_witness :
    handle_task env0 { pageC2 with attempts := 0, maxAttempts := 3 } = handle_task env0 pageC2 ∧
    pageC2.status = "Ready" :=
  ⟨c2_no_attempt_accounting.1 env0 pageC2 0 3,
   c2_no_attempt_accounting.2.2 [pageC2] pageC2 (by simp [fetch_ready_tasks, pageC2])⟩

/-- C3: safe_run refuses execution — raising before any subprocess is
spawned (`raised`, never `ranScript`) — whenever the tokenized command has a
token count other than exactly one, regardless of the allow-list; and a
single token whose base filename is not allow-listed also fails without a
spawn. -/
theorem c3_token_count_guard :
    (∀ env cmd s, pyOr cmd (.str "") = .str s → (env.split s).length ≠ 1 →
        safe_run env cmd = .raised ("Only single command name allowed in Payload.cmd")) ∧
    (∀ env cmd s tok, pyOr cmd (.str "") = .str s → env.split s = [tok] →
        ALLOWED_SCRIPTS.contains (basename tok) = false →
        safe_run env cmd = .raised ("Script " ++ basename tok ++ " not allowed")) := by
  constructor
  · intro env cmd s h1 h2
    unfold safe_run
    rw [h1]
    dsimp only
    rcases hs : env.split s with _ | ⟨tok, _ | ⟨t2, rest⟩⟩
    · rfl
    · rw [hs] at h2
      exact absurd rfl h2
    · rfl
  · intro env cmd s tok h1 h2 h3
    unfold safe_run
    rw [h1]
    dsimp only
    rw [h2]
    dsimp only
    rw [if_neg (by rw [h3]; exact Bool.false_ne_true)]

/-- Witness for C3: the spec scenario `rm -rf /` (three tokens) is refused,
and a disallowed single-token script is refused. -/
theorem c3_token_count_guard_witness :
    safe_run env0 (.str ("rm -rf /")) =
      .raised ("Only single command name allowed in Payload.cmd") ∧
    safe_run env0 (.str ("evil.sh")) = .raised ("Script " ++ basename ("evil.sh") ++ " not allowed") :=
  ⟨c3_token_count_guard.1 env0 (.str ("rm -rf /")) ("rm -rf /") rfl (by decide),
   c3_token_count_guard.2 env0 (.str ("evil.sh")) ("evil.sh") ("evil.sh") rfl (by decide)
     (by decide)⟩

/-- C10: every handled task is set to Running first; the second and final
status write is Done or Failed (never a direct Ready-to-terminal jump); a
task whose action is outside the dispatch table ends Failed, and so does a
run_script or call_api task whose payload text failed to parse (empty dict
fallback), assuming the tokenizer yields no tokens on the empty string. -/
theorem c10_running_before_dispatch :
    (∀ env page, (handle_task env page).head? = some ⟨"Running", none⟩) ∧
    (∀ env page, ∃ u, handle_task env page = [⟨"Running", none⟩, u] ∧
        (u.status = "Done" ∨ u.status = "Failed")) ∧
    (∀ env page,
        page.action ∉ [some ("run_script"), some ("call_api"), some ("codex_apply")] →
        ∃ msg, handle_task env page = [⟨"Running", none⟩, ⟨"Failed", some msg⟩]) ∧
    (∀ env page, env.split ("") = [] → payload_of env page = .obj [] →
        (page.action = some ("run_script") ∨ page.action = some ("call_api")) →
        ∃ msg, handle_task env page = [⟨"Running", none⟩, ⟨"Failed", some msg⟩]) := by
  refine ⟨?_, ?_, ?_, ?_⟩
  · intro env page
    rfl
  · intro env page
    unfold handle_task
    dsimp only
    cases hd : dispatch env page.action (payload_of env page) with
    | raised e =>
      exact ⟨_, rfl, Or.inr (set_status_status _ _)⟩
    | ranScript sc code out =>
      dsimp only
      by_cases hc : isSuccessCode (.num code) = true
      · rw [if_pos hc]
        exact ⟨_, rfl, Or.inl (set_status_status _ _)⟩
      · rw [if_neg hc]
        exact ⟨_, rfl, Or.inr (set_status_status _ _)⟩
    | calledApi u m code out =>
      dsimp only
      by_cases hc : isSuccessCode (.num code) = true
      · rw [if_pos hc]
        exact ⟨_, rfl, Or.inl (set_status_status _ _)⟩
      · rw [if_neg hc]
        exact ⟨_, rfl, Or.inr (set_status_status _ _)⟩
  · intro env page h
    refine ⟨pyTake 1800 ("Error: " ++ ("Unknown or not allowed action: " ++ optStr page.action)), ?_⟩
    unfold handle_task
    dsimp only
    rw [dispatch_unknown h]
    dsimp only
    rw [set_status_some_ne _ (error_msg_ne _)]
    rfl
  · intro env page hsplit hpl ha
    have hd : ∃ e, dispatch env page.action (payload_of env page) = .raised e := by
      rcases ha with ha | ha
      · refine ⟨"Only single command name allowed in Payload.cmd", ?_⟩
        unfold dispatch
        rw [if_pos (by simp [ha]), hpl]
        unfold JVal.get?
        dsimp only
        unfold safe_run
        rw [show pyOr ((List.lookup ("cmd") ([] : List (String × JVal))).getD .null) (.str "") =
              .str "" from rfl]
        dsimp only
        rw [hsplit]
      · refine ⟨"URL not allowed", ?_⟩
        unfold dispatch
        rw [if_neg (by simp [ha]), if_pos (by simp [ha]), hpl]
        unfold call_api JVal.get?
        rfl
    obtain ⟨e, hd⟩ := hd
    refine ⟨pyTake 1800 ("Error: " ++ e), ?_⟩
    unfold handle_task
    dsimp only
    rw [hd]
    dsimp only
    rw [set_status_some_ne _ (error_msg_ne _)]
    rfl

/-- Witness for C10 at a concrete page with an unknown action. -/
theorem c10_running_before_dispatch_witness :
    (handle_task env0 pageC10).head? = some ⟨"Running", none⟩ ∧
    (∃ u, handle_task env0 pageC10 = [⟨"Running", none⟩, u] ∧
        (u.status = "Done" ∨ u.status = "Failed")) ∧
    (∃ msg, handle_task env0 pageC10 = [⟨"Running", none⟩, ⟨"Failed", some msg⟩]) :=
  ⟨c10_running_before_dispatch.1 env0 pageC10,
   c10_running_before_dispatch.2.1 env0 pageC10,
   c10_running_before_dispatch.2.2.1 env0 pageC10 (by decide)⟩

/-- C4 (counterexample): a call_api payload with a disallowed URL and a
truthy non-string method fails with an attribute error on the method — not
with the URL-not-allowed error — because the method default is computed
before the URL check; no HTTP request is issued and the task still ends
Failed. -/
theorem c4_method_before_url_counterexample :
    call_api env0 payloadC4 = .raised ("AttributeError: upper") ∧
    ("AttributeError: upper" : String) ≠ "URL not allowed" ∧
    payloadC4.get? ("url") = .ok (.str ("https://evil.example/hook")) ∧
    urlAllowed (.str ("https://evil.example/hook")) = false ∧
    handle_task env0 pageC4 =
      [⟨"Running", none⟩, ⟨"Failed", some ("Error: AttributeError: upper")⟩] :=
  ⟨rfl, by decide, rfl, by decide, rfl⟩

/-- C4 (amended): whenever a call_api payload's url is absent, falsy, or not
exactly an allow-listed entry, the executor raises before issuing any HTTP
request (the outcome is never `calledApi`) and the task ends Failed; the
error is the URL-not-allowed one in every case where the method field
normalizes to a string (absent, falsy or string-valued method), while a
truthy non-string method raises an attribute error first. -/
theorem c4_url_guard :
    (∀ env kvs,
        (((kvs.lookup ("url")).getD .null).truthy = false ∨
          urlAllowed ((kvs.lookup ("url")).getD .null) = false) →
        (∀ u m c o, call_api env (.obj kvs) ≠ .calledApi u m c o) ∧
        (∃ e, call_api env (.obj kvs) = .raised e) ∧
        (∀ m, pyOr ((kvs.lookup ("method")).getD .null) (.str ("GET")) = .str m →
            call_api env (.obj kvs) = .raised ("URL not allowed"))) ∧
    (∀ env page e, dispatch env page.action (payload_of env page) = .raised e →
        handle_task env page =
          [⟨"Running", none⟩, ⟨"Failed", some (pyTake 1800 ("Error: " ++ e))⟩]) := by
  constructor
  · intro env kvs h
    have hcond : (!((kvs.lookup ("url")).getD .null).truthy ||
        !urlAllowed ((kvs.lookup ("url")).getD .null)) = true := by
      rcases h with h | h <;> simp [h]
    unfold call_api
    unfold JVal.get?
    dsimp only
    generalize pyOr ((List.lookup ("method") kvs).getD .null) (.str ("GET")) = mv
    cases mv
    case str m =>
      dsimp only
      rw [if_pos hcond]
      exact ⟨(fun u m2 c o hgeq => by cases hgeq), ⟨_, rfl⟩, (fun m2 _ => rfl)⟩
    all_goals
      exact ⟨(fun u m2 c o hgeq => by cases hgeq), ⟨_, rfl⟩, (fun m2 hm2 => by cases hm2)⟩
  · intro env page e hd
    unfold handle_task
    dsimp only
    rw [hd]
    dsimp only
    rw [set_status_some_ne _ (error_msg_ne _)]
    rfl

/-- Witness for C4: the spec scenario — a disallowed URL with no method
field — raises the URL-not-allowed error with no HTTP request, and a raised
dispatch produces the Running-then-Failed write sequence. -/
theorem c4_url_guard_witness :
    call_api env0 (.obj [("url", .str ("https://evil.example/hook"))]) =
      .raised ("URL not allowed") ∧
    handle_task env0 pageC10 =
      [⟨"Running", none⟩,
       ⟨"Failed", some (pyTake 1800 ("Error: " ++ ("Unknown or not allowed action: noop")))⟩] :=
  ⟨(c4_url_guard.1 env0 [("url", .str ("https://evil.example/hook"))]
      (Or.inr (by decide))).2.2 ("GET") rfl,
   c4_url_guard.2 env0 pageC10 ("Unknown or not allowed action: noop") rfl⟩

theorem isSuccessCode_num (code : Int) :
    isSuccessCode (.num code) = true ↔ (code = 0 ∨ (200 ≤ code ∧ code < 300)) := by
  simp [isSuccessCode, pyIntVal]

/-- C5: a task whose executor returns a result (code, out) is set to Done
exactly when code = 0 or 200 ≤ code < 300 and to Failed otherwise; on the
result-code test itself, any Python value that is not an int (bools counting
as ints 0 and 1) never passes as success. -/
theorem c5_success_criterion :
    (∀ env page script code out,
        dispatch env page.action (payload_of env page) = .ranScript script code out →
        handle_task env page =
          [⟨"Running", none⟩,
           if code = 0 ∨ (200 ≤ code ∧ code < 300) then set_status ("Done") (some out)
           else set_status ("Failed") (some out)]) ∧
    (∀ env page url method code out,
        dispatch env page.action (payload_of env page) = .calledApi url method code out →
        handle_task env page =
          [⟨"Running", none⟩,
           if code = 0 ∨ (200 ≤ code ∧ code < 300) then set_status ("Done") (some out)
           else set_status ("Failed") (some out)]) ∧
    (∀ v i, pyIntVal v = some i →
        (isSuccessCode v = true ↔ (i = 0 ∨ (200 ≤ i ∧ i < 300)))) ∧
    (∀ v, pyIntVal v = none → isSuccessCode v = false) := by
  refine ⟨?_, ?_, ?_, ?_⟩
  · intro env page script code out hd
    unfold handle_task
    dsimp only
    rw [hd]
    dsimp only
    by_cases hc : code = 0 ∨ (200 ≤ code ∧ code < 300)
    · rw [if_pos ((isSuccessCode_num code).mpr hc), if_pos hc]
      rfl
    · rw [if_neg (fun ht => hc ((isSuccessCode_num code).mp ht)), if_neg hc]
      rfl
  · intro env page url method code out hd
    unfold handle_task
    dsimp only
    rw [hd]
    dsimp only
    by_cases hc : code = 0 ∨ (200 ≤ code ∧ code < 300)
    · rw [if_pos ((isSuccessCode_num code).mpr hc), if_pos hc]
      rfl
    · rw [if_neg (fun ht => hc ((isSuccessCode_num code).mp ht)), if_neg hc]
      rfl
  · intro v i hv
    cases v with
    | num j =>
      simp only [pyIntVal, Option.some.injEq] at hv
      subst hv
      exact isSuccessCode_num _
    | bool b =>
      cases b <;> simp only [pyIntVal, Option.some.injEq] at hv <;> subst hv <;> decide
    | null => simp [pyIntVal] at hv
    | str s => simp [pyIntVal] at hv
    | arr xs => simp [pyIntVal] at hv
    | obj okvs => simp [pyIntVal] at hv
  · intro v hv
    cases v with
    | num j => simp [pyIntVal] at hv
    | bool b => simp [pyIntVal] at hv
    | null => rfl
    | str s => rfl
    | arr xs => rfl
    | obj okvs => rfl

/-- Witness for C5: the concrete build task exits 0 and is set to Done; a
404-returning value fails the success test while 204 passes. -/
theorem c5_success_criterion_witness :
    handle_task env0 pageC5 = [⟨"Running", none⟩, ⟨"Done", some ("ok")⟩] ∧
    (isSuccessCode (.num 204) = true ↔ ((204 : Int) = 0 ∨ ((200 : Int) ≤ 204 ∧ (204 : Int) < 300))) ∧
    isSuccessCode (.str ("0")) = false := by
  refine ⟨?_, c5_success_criterion.2.2.1 (.num 204) 204 rfl,
          c5_success_criterion.2.2.2 (.str ("0")) rfl⟩
  have h := c5_success_criterion.1 env0 pageC5 ("build.sh") 0 ("ok") rfl
  rw [h, if_pos (Or.inl rfl)]
  rfl

/-- C6 (counterexample): an element whose priority is the truthy non-numeric
string `high` makes `int(...)` raise, aborting the whole decomposition with
an error — even when five valid elements precede it — rather than defaulting
the priority to the running counter. -/
theorem c6_nonnumeric_priority_aborts :
    sanitize_item 1 itemBadPriority = .error ("invalid literal for int(): high") ∧
    sanitize_tasks dataC6 = .error ("invalid literal for int(): high") :=
  ⟨rfl, rfl⟩

/-- C6 (amended): the sanitizer considers only the first 25 elements; every
surviving task has a non-empty title of at most 180 characters, an action
that is exactly run_script or call_api, and a priority clamped into
[1, 999]; the priority defaults to the running counter whenever the field is
absent or falsy; but a truthy priority that does not parse as an integer
aborts the decomposition with an error instead of being defaulted. -/
theorem c6_sanitizer_clamps :
    (∀ data, sanitize_tasks data = sanitize_tasks (data.take 25)) ∧
    (∀ data tasks, sanitize_tasks data = .ok tasks → ∀ t ∈ tasks,
        t.title ≠ "" ∧ pyLen t.title ≤ 180 ∧
        (t.action = "run_script" ∨ t.action = "call_api") ∧
        1 ≤ t.priority ∧ t.priority ≤ 999) ∧
    (∀ p kvs t, ((kvs.lookup ("priority")).getD .null).truthy = false →
        sanitize_item p (.obj kvs) = .ok (some t) → t.priority = max 1 (min 999 p)) ∧
    (∀ p kvs s e0, kvs.lookup ("priority") = some (.str s) → s ≠ "" →
        parseIntStr s = .error e0 →
        ∃ e, sanitize_item p (.obj kvs) = .error e) := by
  refine ⟨?_, ?_, ?_, ?_⟩
  · intro data
    unfold sanitize_tasks
    rw [List.take_take, min_self]
  · intro data tasks h t ht
    unfold sanitize_tasks at h
    split at h
    · exact absurd h (by simp)
    next ts0 heq =>
    split at h
    · exact absurd h (by simp)
    rw [Except.ok.injEq] at h
    subst h
    obtain ⟨h1, h2, h3, h4, h5⟩ := (sanitize_items_good _ _ _ heq).1 t ht
    refine ⟨h1, h2, ?_, h3, h4⟩
    rcases h5 with ⟨ha, _⟩ | ⟨ha, _⟩
    · exact Or.inl ha
    · exact Or.inr ha
  · intro p kvs t hfalsy h
    unfold sanitize_item at h
    unfold JVal.get? at h
    dsimp only at h
    rw [pyOr_neg hfalsy] at h
    split at h
    case h_2 => exact absurd h (by simp)
    next a hA =>
    split at h
    case h_1 => exact absurd h (by simp)
    next priority hP =>
    rw [show pyInt (JVal.num p) = .ok p from rfl, Except.ok.injEq] at hP
    subst hP
    split at h
    case isTrue => exact absurd h (by simp)
    next hguard =>
    split at h
    · next hrs =>
      split at h
      case h_1 => exact absurd h (by simp)
      next cmdV hC =>
      rw [Except.ok.injEq, Option.some.injEq] at h
      subst h
      rfl
    · next hrs =>
      split at h
      case h_2 => exact absurd h (by simp)
      next urlV methodV bodyV hU hM hB =>
      split at h
      case h_2 => exact absurd h (by simp)
      next m hm =>
      rw [Except.ok.injEq, Option.some.injEq] at h
      subst h
      rfl
  · intro p kvs s e0 hlook hne0 hperr
    unfold sanitize_item
    unfold JVal.get?
    dsimp only
    rw [hlook]
    generalize pyOr ((List.lookup ("action") kvs).getD .null) (.str ("")) = av
    cases av
    case str a =>
      rw [show (some (JVal.str s)).getD JVal.null = JVal.str s from rfl]
      rw [pyOr_pos (str_truthy_of_ne hne0), show pyInt (JVal.str s) = parseIntStr s from rfl,
          hperr]
      exact ⟨e0, rfl⟩
    all_goals exact ⟨_, rfl⟩

/-- Witness for C6: the five-element dataset is reproduced with its clamp
facts, and an absent priority defaults to the clamped running counter. -/
theorem c6_sanitizer_clamps_witness :
    ((buildTask ("t1") 1).title ≠ "" ∧ pyLen (buildTask ("t1") 1).title ≤ 180 ∧
      ((buildTask ("t1") 1).action = "run_script" ∨ (buildTask ("t1") 1).action = "call_api") ∧
      1 ≤ (buildTask ("t1") 1).priority ∧ (buildTask ("t1") 1).priority ≤ 999) ∧
    sanitize_tasks dataW = sanitize_tasks (dataW.take 25) :=
  ⟨c6_sanitizer_clamps.2.1 dataW tasksW rfl (buildTask ("t1") 1) (by simp [tasksW]),
   c6_sanitizer_clamps.1 dataW⟩

/-- C7: when the parsed generation output is an array whose first 25 elements
yield fewer than 5 surviving tasks, llm_decompose_epic fails with the
too-few-tasks validation error, the epic is marked Running and then Failed,
and no task records are handed to creation. -/
theorem c7_too_few_tasks_fails_epic :
    ∀ (k : String) (r : HttpResp) (extract : String → String)
      (loads : String → Except String JVal) (items : List JVal)
      (survivors : List GenTask) (desc : String) (createOk : GenTask → Bool),
      k ≠ "" → r.ok = true → loads (extract r.content) = .ok (.arr items) →
      sanitize_items (items.take 25) 1 = .ok survivors → survivors.length < 5 →
      desc ≠ "" →
      llm_decompose_epic (some k) (.resp r) extract loads =
        .error ("Too few tasks after validation") ∧
      process_epic desc (llm_decompose_epic (some k) (.resp r) extract loads) createOk =
        ⟨[⟨"Running", some ("Decomposing epic into tasks...")⟩,
          ⟨"Failed", some ("Epic decomposition failed: Too few tasks after validation")⟩],
         []⟩ := by
  intro k r extract loads items survivors desc createOk hk hok hloads hsan hlt hdesc
  have hd : llm_decompose_epic (some k) (.resp r) extract loads =
      .error ("Too few tasks after validation") := by
    unfold llm_decompose_epic llm_backend_call
    rw [if_neg (by simp [hk])]
    dsimp only
    rw [if_pos hok]
    dsimp only
    rw [hloads]
    dsimp only
    unfold sanitize_tasks
    rw [hsan]
    dsimp only
    rw [if_pos hlt]
  refine ⟨hd, ?_⟩
  rw [hd]
  unfold process_epic
  rw [if_neg (by simp [hdesc])]
  rfl

/-- Witness for C7: an empty generation array yields zero tasks, the
validation error, and the Failed epic with nothing created. -/
theorem c7_too_few_tasks_fails_epic_witness :
    process_epic ("Build the MVP")
        (llm_decompose_epic (some ("sk-1")) (.resp ⟨true, 200, "", "[]"⟩) id
          (fun _ => .ok (.arr []))) (fun _ => true) =
      ⟨[⟨"Running", some ("Decomposing epic into tasks...")⟩,
        ⟨"Failed", some ("Epic decomposition failed: Too few tasks after validation")⟩],
       []⟩ :=
  (c7_too_few_tasks_fails_epic ("sk-1") ⟨true, 200, "", "[]"⟩ id (fun _ => .ok (.arr []))
    [] [] ("Build the MVP") (fun _ => true) (by decide) rfl rfl rfl (by decide)
    (by decide)).2

theorem chat_complete_go_resp_ok {backend : Nat → GenAttempt} {i fuel : Nat}
    {last : Option String} {r : HttpResp} (hb : backend i = .resp r) (hok : r.ok = true) :
    chat_complete_go backend i (fuel + 1) last = .ok r.content := by
  unfold chat_complete_go
  rw [hb]
  dsimp only
  rw [if_pos hok]

theorem chat_complete_go_resp_4xx {backend : Nat → GenAttempt} {i fuel : Nat}
    {last : Option String} {r : HttpResp} (hb : backend i = .resp r) (hok : r.ok = false)
    (hlt : r.status < 500) :
    chat_complete_go backend i (fuel + 1) last =
      .error ("Failed after retries: " ++ toString r.status ++ " " ++ pyTake 300 r.text) := by
  unfold chat_complete_go
  rw [hb]
  dsimp only
  rw [if_neg (by simp [hok]), if_neg (by omega)]
  rfl

theorem chat_complete_go_resp_5xx {backend : Nat → GenAttempt} {i fuel : Nat}
    {last : Option String} {r : HttpResp} (hb : backend i = .resp r) (hok : r.ok = false)
    (hge : 500 ≤ r.status) :
    chat_complete_go backend i (fuel + 1) last =
      chat_complete_go backend (i + 1) fuel
        (some (toString r.status ++ " " ++ pyTake 300 r.text)) := by
  conv_lhs => unfold chat_complete_go
  rw [hb]
  dsimp only
  rw [if_neg (by simp [hok]), if_pos hge]

theorem chat_complete_go_net {backend : Nat → GenAttempt} {i fuel : Nat}
    {last : Option String} {e : String} (hb : backend i = .netErr e) :
    chat_complete_go backend i (fuel + 1) last =
      chat_complete_go backend (i + 1) fuel (some e) := by
  conv_lhs => unfold chat_complete_go
  rw [hb]

/-- C8 (counterexample): on a backend whose first response is a 503 and whose
second succeeds, the test-script client chat_complete retries and succeeds,
but worker.py's generation call — the one driving the epic pipeline — fails
immediately on the 503 and the epic ends Failed: the worker's backend call
performs no retry at all, so a 5xx is immediately fatal for the epic,
contradicting the claimed retry-on-5xx behavior. -/
theorem c8_worker_never_retries_counterexample :
    backendC8 0 = .resp ⟨false, 503, "upstream error", ""⟩ ∧
    chat_complete backendC8 = .ok ("[]") ∧
    llm_decompose_epic (some ("sk-1")) (.resp ⟨false, 503, "upstream error", ""⟩) id
        (fun _ => .ok (.arr [])) = .error ("OpenAI API error: 503 upstream error") ∧
    process_epic ("Ship onboarding")
        (llm_decompose_epic (some ("sk-1")) (.resp ⟨false, 503, "upstream error", ""⟩) id
          (fun _ => .ok (.arr []))) (fun _ => true) =
      ⟨[⟨"Running", some ("Decomposing epic into tasks...")⟩,
        ⟨"Failed", some ("Epic decomposition failed: OpenAI API error: 503 upstream error")⟩],
       []⟩ :=
  ⟨rfl, rfl, rfl, rfl⟩

/-- C8 (amended): in worker.py the generation backend call is performed
exactly once with no retry — any non-ok response (whatever its status) or
network error is immediately fatal for the epic; the bounded retry with
exponential backoff that retries only on 5xx or network errors and fails
immediately on other (4xx) responses exists only in the standalone test
script's chat_complete, which is capped at 5 attempts. -/
theorem c8_generation_retry_only_in_test_script :
    (∀ (k : String) (extract : String → String) (loads : String → Except String JVal)
        (r : HttpResp), k ≠ "" → r.ok = false →
        llm_decompose_epic (some k) (.resp r) extract loads =
          .error ("OpenAI API error: " ++ toString r.status ++ " " ++ pyTake 400 r.text)) ∧
    (∀ (k : String) (extract : String → String) (loads : String → Except String JVal)
        (e : String), k ≠ "" →
        llm_decompose_epic (some k) (.netErr e) extract loads = .error e) ∧
    (∀ (backend : Nat → GenAttempt) (r : HttpResp), backend 0 = .resp r → r.ok = false →
        r.status < 500 →
        chat_complete backend =
          .error ("Failed after retries: " ++ toString r.status ++ " " ++ pyTake 300 r.text)) ∧
    (∀ (backend : Nat → GenAttempt) (r r2 : HttpResp), backend 0 = .resp r → r.ok = false →
        500 ≤ r.status → backend 1 = .resp r2 → r2.ok = true →
        chat_complete backend = .ok r2.content) ∧
    (∀ (backend : Nat → GenAttempt) (es : Nat → String), (∀ i, backend i = .netErr (es i)) →
        chat_complete backend = .error ("Failed after retries: " ++ es 4)) := by
  refine ⟨?_, ?_, ?_, ?_, ?_⟩
  · intro k extract loads r hk hok
    unfold llm_decompose_epic llm_backend_call
    rw [if_neg (by simp [hk])]
    dsimp only
    rw [if_neg (by simp [hok])]
  · intro k extract loads e hk
    unfold llm_decompose_epic llm_backend_call
    rw [if_neg (by simp [hk])]
  · intro backend r hb hok hlt
    unfold chat_complete
    rw [show (5 : Nat) = 4 + 1 from rfl, chat_complete_go_resp_4xx hb hok hlt]
  · intro backend r r2 hb hok hge hb2 hok2
    unfold chat_complete
    rw [show (5 : Nat) = 4 + 1 from rfl, chat_complete_go_resp_5xx hb hok hge,
        show (4 : Nat) = 3 + 1 from rfl, chat_complete_go_resp_ok hb2 hok2]
  · intro backend es h
    unfold chat_complete
    rw [show (5 : Nat) = 4 + 1 from rfl, chat_complete_go_net (h 0),
        show (4 : Nat) = 3 + 1 from rfl, chat_complete_go_net (h 1),
        show (3 : Nat) = 2 + 1 from rfl, chat_complete_go_net (h 2),
        show (2 : Nat) = 1 + 1 from rfl, chat_complete_go_net (h 3),
        show (1 : Nat) = 0 + 1 from rfl, chat_complete_go_net (h 4)]
    rfl

/-- Witness for C8: a 401 backend makes chat_complete fail after one attempt
with no retry, and makes the worker call fail immediately as well. -/
theorem c8_generation_retry_witness :
    chat_complete backend401 =
      .error ("Failed after retries: " ++ toString (401 : Int) ++ " " ++
        pyTake 300 ("unauthorized")) ∧
    llm_decompose_epic (some ("sk-1")) (.resp ⟨false, 401, "unauthorized", ""⟩) id
        (fun _ => .ok (.arr [])) =
      .error ("OpenAI API error: " ++ toString (401 : Int) ++ " " ++
        pyTake 400 ("unauthorized")) :=
  ⟨c8_generation_retry_only_in_test_script.2.2.1 backend401
      ⟨false, 401, "unauthorized", ""⟩ rfl rfl (by decide),
   c8_generation_retry_only_in_test_script.1 ("sk-1") id (fun _ => .ok (.arr []))
      ⟨false, 401, "unauthorized", ""⟩ (by decide) rfl⟩

/-- C9 (counterexample): the sanitizer is not idempotent: a 181-character
title with no surrounding whitespace is stripped and then truncated to 180
characters, exposing a trailing space; re-running the sanitizer on the
serialized output strips that space, producing a different title. -/
theorem c9_not_idempotent_counterexample :
    sanitize_tasks dataC9 = .ok tasksC9 ∧
    sanitize_tasks (tasksC9.map GenTask.toJVal) = .ok tasksC9sec ∧
    (tasksC9.map GenTask.title).get? 4 ≠ (tasksC9sec.map GenTask.title).get? 4 :=
  ⟨rfl, rfl, by decide⟩

/-- C9 (amended): the sanitizer is idempotent on every output whose titles
are unaffected by a second strip (in particular whenever no title needed
truncation): re-validating the serialized output reproduces it exactly —
titles, actions, payload clamps, methods, bodies and priorities are all
fixed points of the second pass. -/
theorem c9_idempotent_on_stripped_titles :
    ∀ (data : List JVal) (tasks : List GenTask),
      sanitize_tasks data = .ok tasks →
      (∀ t ∈ tasks, pyStrip t.title = t.title) →
      sanitize_tasks (tasks.map GenTask.toJVal) = .ok tasks := by
  intro data tasks h htrim
  unfold sanitize_tasks at h
  split at h
  · exact absurd h (by simp)
  next ts0 heq =>
  split at h
  · exact absurd h (by simp)
  next hlen5 =>
  rw [Except.ok.injEq] at h
  subst h
  have hg := sanitize_items_good _ _ _ heq
  have hlen25 : ts0.length ≤ 25 := by
    refine le_trans hg.2 ?_
    rw [List.length_take]
    omega
  unfold sanitize_tasks
  rw [List.take_of_length_le (by simpa using hlen25)]
  rw [sanitize_items_fixed ts0 1 (fun t ht => ⟨hg.1 t ht, htrim t ht⟩)]
  dsimp only
  rw [if_neg hlen5]

/-- Witness for C9: the five-task output with short titles is reproduced
exactly by a second sanitization pass. -/
theorem c9_idempotent_witness :
    sanitize_tasks (tasksW.map GenTask.toJVal) = .ok tasksW :=
  c9_idempotent_on_stripped_titles dataW tasksW rfl (by decide)

end TaskRunner
